import Mathlib

/-!
Shallow embedding of the fingerprint-construction core of `src/attack.py`
(classes `NormalTraffic`, `AttackVector`, `Fingerprint`).

Conventions of the embedding:
* A pandas record (one row of the DataFrame) is a `Record`; a DataFrame is a
  `List Record`.
* Timestamps (`time_start`, `time_end`) are integer nanoseconds, the storage
  unit of pandas `Timestamp`/`Timedelta`.
* Python nonnegative integer arithmetic (`//`, `<<`) is `Nat` arithmetic.
* pandas integer-series floor division by zero does not raise: it produces
  `inf` for `x // 0` with `x > 0` and `NaN` for `0 // 0`, and `Series.max`
  skips `NaN` (returning `NaN` only when every entry is `NaN`).  The value
  space of such a series aggregate is modelled by `PdVal`.
* `util.py` (imported by `attack.py` for `get_outliers`,
  `AMPLIFICATION_SERVICES`, `TCP_FLAG_NAMES` and `FileType`) is part of the
  repository but not among the given sources, so the summarizer outputs and
  the two tables are taken as parameters / modelled from the spec where
  needed; `socket.getservbyport` is external and abstracted by a lookup
  function.
-/

/-- Modelled from the spec: `util.FileType`, the file-type tag distinguishing
packet-level (pcap) captures from flow-level captures (§3, §4.2). -/
inductive FileType where
  | flow
  | pcap
deriving DecidableEq, Repr

/-- One traffic record (a row of the pandas DataFrame handed to
`AttackVector` / `NormalTraffic`); only the columns read by `attack.py`
are modelled.  Times are integer nanoseconds. -/
structure Record where
  source_address : Nat
  source_port : Nat
  destination_port : Nat
  nr_packets : Nat
  nr_bytes : Nat
  time_start : Int
  time_end : Int
  unix_timestamp : Nat
deriving DecidableEq, Repr

/-- `data.nr_packets.sum()` -/
def sumPackets (data : List Record) : Nat :=
  (data.map Record.nr_packets).sum

/-- `data.nr_bytes.sum()` -/
def sumBytes (data : List Record) : Nat :=
  (data.map Record.nr_bytes).sum

/-- The distinct `unix_timestamp` keys of `data.groupby('unix_timestamp')`. -/
def groupKeys (data : List Record) : List Nat :=
  (data.map Record.unix_timestamp).dedup

/-- `data.groupby('unix_timestamp').sum()` restricted to the two columns the
code reads: for each distinct timestamp, the pair
(sum of `nr_bytes`, sum of `nr_packets`). -/
def groupSums (data : List Record) : List (Nat × Nat) :=
  (groupKeys data).map fun t =>
    (sumBytes (data.filter fun r => r.unix_timestamp == t),
     sumPackets (data.filter fun r => r.unix_timestamp == t))

/-- Maximum of a list of naturals (`Series.max` on a nonempty integer
series; `0` is only a placeholder for the empty list, which the code never
reaches on nonempty data). -/
def natListMax (l : List Nat) : Nat :=
  l.foldr max 0

/-- Value of an aggregate over a pandas integer series that went through a
floor division: finite, `inf` (positive // 0) or `NaN` (0 // 0). -/
inductive PdVal where
  | nan
  | inf
  | fin (n : Nat)
deriving DecidableEq, Repr

/-- `Series.max` combination with `skipna=True` semantics: `NaN` entries are
skipped, `inf` dominates every finite value. -/
def pdMax2 : PdVal → PdVal → PdVal
  | PdVal.nan, y => y
  | x, PdVal.nan => x
  | PdVal.inf, _ => PdVal.inf
  | _, PdVal.inf => PdVal.inf
  | PdVal.fin a, PdVal.fin b => PdVal.fin (max a b)

/-- One entry of `grouped.nr_bytes // grouped.nr_packets` (pandas integer
floor division: `b // p` for `p > 0`, `inf` for `b > 0, p = 0`, `NaN` for
`0 // 0`). -/
def pdQuot (g : Nat × Nat) : PdVal :=
  if 0 < g.2 then PdVal.fin (g.1 / g.2)
  else if 0 < g.1 then PdVal.inf
  else PdVal.nan

/-- `(grouped.nr_bytes // grouped.nr_packets).max()` with `skipna` -/
def pdSeriesMax (l : List (Nat × Nat)) : PdVal :=
  (l.map pdQuot).foldl pdMax2 PdVal.nan

/-- Minimum start time: `data.time_start.min()` (nonempty data). -/
def minStart : List Record → Int
  | [] => 0
  | r :: rs => (rs.map Record.time_start).foldl min r.time_start

/-- Maximum end time: `data.time_end.max()` (nonempty data). -/
def maxEnd : List Record → Int
  | [] => 0
  | r :: rs => (rs.map Record.time_end).foldl max r.time_end

/-- pandas `Timedelta.round(freq='s')` on a nanosecond count: round to the
nearest whole second, ties to even (pandas `RoundTo.NEAREST_HALF_EVEN`).
Returns whole seconds. -/
def roundHalfEvenSec (ns : Int) : Int :=
  let q := ns.ediv 1000000000
  let r := ns.emod 1000000000
  if 2 * r < 1000000000 then q
  else if 1000000000 < 2 * r then q + 1
  else if q.emod 2 = 0 then q else q + 1

/-- `Timedelta.seconds`: the seconds component of the timedelta, i.e. the
total whole seconds with whole days removed — always in `[0, 86400)`, also
for negative timedeltas. -/
def tdSecondsComponent (s : Int) : Int :=
  s.emod 86400

/-- `self.duration = (self.time_end - self.time_start).round(freq='s').seconds`
(attack.py line 109). -/
def avDuration (data : List Record) : Int :=
  tdSecondsComponent (roundHalfEvenSec (maxEnd data - minStart data))

/-- `self.avg_bps = (self.bytes << 3) // self.duration if self.duration > 0 else 0`
(attack.py line 124). -/
def avAvgBps (data : List Record) : Nat :=
  if 0 < avDuration data then (sumBytes data * 8) / (avDuration data).toNat else 0

/-- `self.avg_pps = self.packets // self.duration if self.duration > 0 else 0`
(attack.py line 125). -/
def avAvgPps (data : List Record) : Nat :=
  if 0 < avDuration data then sumPackets data / (avDuration data).toNat else 0

/-- `self.avg_Bpp = self.bytes // self.packets if self.packets > 0 else 0`
(attack.py line 126). -/
def avAvgBpp (data : List Record) : Nat :=
  if 0 < sumPackets data then sumBytes data / sumPackets data else 0

/-- `self.peak_bps = self.grouped_by_timestamp.nr_bytes.max() << 3`
(attack.py line 128) — note: no zero guard. -/
def avPeakBps (data : List Record) : Nat :=
  natListMax ((groupSums data).map Prod.fst) * 8

/-- `self.peak_pps = self.grouped_by_timestamp.nr_packets.max()`
(attack.py line 129) — note: no zero guard. -/
def avPeakPps (data : List Record) : Nat :=
  natListMax ((groupSums data).map Prod.snd)

/-- `self.peak_Bpp = (self.grouped_by_timestamp.nr_bytes // self.grouped_by_timestamp.nr_packets).max()`
(attack.py line 130) — pandas semantics, no zero guard. -/
def avPeakBpp (data : List Record) : PdVal :=
  pdSeriesMax (groupSums data)

/-- `NormalTraffic.as_dict` metric `avg_bps` (attack.py line 74). -/
def ntAvgBps (data : List Record) (attack_duration : Int) : Nat :=
  if 0 < attack_duration then (sumBytes data * 8) / attack_duration.toNat else 0

/-- `NormalTraffic.as_dict` metric `avg_pps` (attack.py line 75). -/
def ntAvgPps (data : List Record) (attack_duration : Int) : Nat :=
  if 0 < attack_duration then sumPackets data / attack_duration.toNat else 0

/-- `NormalTraffic.as_dict` metric `avg_Bpp` (attack.py line 76). -/
def ntAvgBpp (data : List Record) : Nat :=
  if 0 < sumPackets data then sumBytes data / sumPackets data else 0

/-- `NormalTraffic.as_dict` metric `peak_bps` (attack.py line 77):
`int(grouped.nr_bytes.max()) << 3 if nr_bytes > 0 else 0`. -/
def ntPeakBps (data : List Record) : Nat :=
  if 0 < sumBytes data then natListMax ((groupSums data).map Prod.fst) * 8 else 0

/-- `NormalTraffic.as_dict` metric `peak_pps` (attack.py line 78):
`int(grouped.nr_packets.max()) if nr_packets > 0 else 0`. -/
def ntPeakPps (data : List Record) : Nat :=
  if 0 < sumPackets data then natListMax ((groupSums data).map Prod.snd) else 0

/-- `NormalTraffic.as_dict` metric `peak_Bpp` (attack.py line 79):
`int((grouped.nr_bytes // grouped.nr_packets).max()) if nr_packets > 0 else 0`
(the guarded-off branch is the Python integer `0`). -/
def ntPeakBpp (data : List Record) : PdVal :=
  if 0 < sumPackets data then pdSeriesMax (groupSums data) else PdVal.fin 0

/-- A key of a summarized-port dictionary produced by `get_outliers` with
`return_others=True`: either a concrete port number or the synthetic
"others" bucket. -/
inductive PKey where
  | num (n : Nat)
  | other
deriving DecidableEq, Repr

/-- `dict(get_outliers(...)) or None` / `... or 'random'`: the Python `or`
maps an empty (falsy) dict to the fallback.  `none` stands for the
fallback (`None` resp. the string `'random'`), `some l` for a nonempty
summarization dictionary in insertion order. -/
def pyDictOr {α β : Type} (l : List (α × β)) : Option (List (α × β)) :=
  if l.isEmpty then none else some l

/-- Python `str.upper()` on the ASCII strings the code handles, at the
character-list level (kernel-computable, unlike `String.toUpper`). -/
def strUpper (s : String) : String := String.mk (s.data.map Char.toUpper)

/-- Python `str.lower()` on the ASCII strings the code handles. -/
def strLower (s : String) : String := String.mk (s.data.map Char.toLower)

/-- Result of `socket.getservbyport`: a service name, `OSError` (service not
found), or `OverflowError` (port outside `0..65535`). -/
inductive LookupRes where
  | found (s : String)
  | notFound
  | overflow
deriving DecidableEq, Repr

/-- Modelled from the spec / Python stdlib: `socket.getservbyport(port, proto)`
raises `OverflowError` outside `0..65535` and `OSError` when the system
services table (abstracted by `lookup`) has no entry. -/
def pyGetservbyport (lookup : Nat → String → Option String)
    (port : Int) (proto : String) : LookupRes :=
  if port < 0 ∨ 65535 < port then LookupRes.overflow
  else
    match lookup port.toNat proto with
    | some s => LookupRes.found s
    | none => LookupRes.notFound

/-- `AMPLIFICATION_SERVICES.get(self.source_port, None)`: lookup of an integer
port in the amplification-service table (an association list, since
`util.py` is not among the sources). -/
def ampGet (amp : List (Nat × String)) (port : Int) : Option String :=
  (amp.find? fun kv => (kv.1 : Int) == port).map Prod.snd

/-- The fallback applied when `getservbyport` raises `OSError`
(attack.py lines 139-143): `'Fragmented IP packets'` exactly when
`self.source_port == 0 and len(self.destination_ports) == 1 and
list(self.destination_ports)[0] == 0`.  When the destination-port
summarization produced `'random'` (a 6-character string) the length test
fails, so the condition is `False`. -/
def fragCondB (source_port : Int) (dports : Option (List (PKey × Nat))) : Bool :=
  match dports with
  | some l =>
    source_port == 0 && l.length == 1 &&
      (match l with
       | (k, _) :: _ => k == PKey.num 0
       | [] => false)
  | none => false

/-- Service value produced by a `getservbyport` call under the surrounding
`try/except` of attack.py lines 131-145: a found name is upper-cased,
`OSError` falls back to the fragmentation heuristic, `OverflowError`
yields `None`. -/
def stdLookupService (lookup : Nat → String → Option String)
    (source_port : Int) (protocol : String)
    (dports : Option (List (PKey × Nat))) : Option String :=
  match pyGetservbyport lookup source_port (strLower protocol) with
  | LookupRes.found s => some (strUpper s)
  | LookupRes.notFound =>
    if fragCondB source_port dports then some "Fragmented IP packets" else none
  | LookupRes.overflow => none

/-- `self.service` as computed by attack.py lines 131-145.  `protocol` is the
raw constructor argument (the stored `self.protocol` is its upper-casing);
`source_port` is the raw constructor argument (`-1` = not fixed).  The
Python `or` between the amplification-table hit and the `getservbyport`
call treats an empty-string table entry as falsy. -/
def getService (amp : List (Nat × String)) (lookup : Nat → String → Option String)
    (protocol : String) (source_port : Int)
    (dports : Option (List (PKey × Nat))) : Option String :=
  if strUpper protocol == "UDP" && source_port != -1 then
    match ampGet amp source_port with
    | some s =>
      if s != "" then some s else stdLookupService lookup source_port protocol dports
    | none => stdLookupService lookup source_port protocol dports
  else if strUpper protocol == "TCP" && source_port != -1 then
    stdLookupService lookup source_port protocol dports
  else
    none

/-- Modelled from the spec (§4.2 step 5), for the refinement claim about
service identification: "for UDP with a fixed source port, prefer a known
amplification-service name keyed by port, fall back to a standard
service-name lookup; for TCP with a fixed source port, use the standard
lookup only; if the port is not fixed, service is unknown (null).  If
lookup fails entirely: special-case source port 0 with the single
summarized destination port also 0 as Fragmented IP packets; otherwise
service remains null." -/
def serviceSpec (amp : List (Nat × String)) (lookup : Nat → String → Option String)
    (protocol : String) (source_port : Int)
    (dports : Option (List (PKey × Nat))) : Option String :=
  if source_port == -1 then none
  else if strUpper protocol == "UDP" then
    match ampGet amp source_port with
    | some s => some s
    | none => stdLookupService lookup source_port protocol dports
  else if strUpper protocol == "TCP" then
    stdLookupService lookup source_port protocol dports
  else
    none

/-- The attributes of an `AttackVector` object read by `__str__`, `__lt__`,
`as_dict` and `Fingerprint.determine_tags`.  `eth_type = none` stands for
the `'random'` marker, `tcp_flags = none` for `None`. -/
structure AttackVector where
  protocol : String
  service : Option String
  fraction_of_attack : ℚ
  source_port : Int
  destination_ports : Option (List (PKey × Nat))
  tcp_flags : Option (List (String × Nat))
  packets : Nat
  bytes : Nat
  source_ips_count : Nat
  duration : Int
  filetype : FileType
  eth_type : Option (List (String × Nat))
deriving DecidableEq, Repr

/-- `AttackVector.__init__` (attack.py lines 88-161) restricted to the
attributes of `AttackVector`.  Since `util.py` is not among the sources,
the `get_outliers` summarization results are parameters (`dp_out`,
`tcp_out`, `eth_out`), as are the amplification table and the services
table behind `socket.getservbyport`. -/
def mkAttackVector (data : List Record) (source_port : Int) (protocol : String)
    (filetype : FileType)
    (dp_out : List (PKey × Nat)) (tcp_out : List (String × Nat))
    (eth_out : List (String × Nat))
    (amp : List (Nat × String)) (lookup : Nat → String → Option String) :
    AttackVector :=
  { protocol := strUpper protocol
    service := getService amp lookup protocol source_port (pyDictOr dp_out)
    fraction_of_attack := 0
    source_port := source_port
    destination_ports := pyDictOr dp_out
    tcp_flags := if strUpper protocol == "TCP" then pyDictOr tcp_out else none
    packets := sumPackets data
    bytes := sumBytes data
    source_ips_count := ((data.map Record.source_address).dedup).length
    duration := avDuration data
    filetype := filetype
    eth_type := if filetype == FileType.pcap then pyDictOr eth_out else none }

/-- `AttackVector.__lt__` (attack.py lines 190-193):
`self.bytes < other.bytes and self.service != 'Fragmented IP packets'`. -/
def avLt (a b : AttackVector) : Bool :=
  decide (a.bytes < b.bytes) && (a.service != some "Fragmented IP packets")

/-- Rendering of `self.service` inside a Python f-string: `None` renders as
the text `None`, a string renders as itself. -/
def pyStrService : Option String → String
  | none => "None"
  | some s => s

/-- `AttackVector.__str__` / `__repr__` (attack.py lines 181-185):
`f'[AttackVector ({self.fraction_of_attack * 100}% of traffic) {self.protocol}, service: {self.service}]'`. -/
def pyStrAttackVector (v : AttackVector) : String :=
  "[AttackVector (" ++ toString (v.fraction_of_attack * 100) ++ "% of traffic) "
    ++ v.protocol ++ ", service: " ++ pyStrService v.service ++ "]"

/-- `str(attack_vectors)`: Python list rendering, `repr` of each element
joined by a comma and space inside square brackets. -/
def pyStrVectorList (vs : List AttackVector) : String :=
  "[" ++ String.intercalate ", " (vs.map pyStrAttackVector) ++ "]"

/-- `str(summary)`: Python `dict[str, int]` rendering in insertion order,
e.g. the two-entry dict prints as \x7b\x27a\x27: 1, \x27b\x27: 2\x7d. -/
def pyStrSummary (s : List (String × Int)) : String :=
  "\x7b" ++
    String.intercalate ", "
      (s.map fun kv => "\x27" ++ kv.1 ++ "\x27: " ++ toString kv.2) ++
  "\x7d"

/-- Modelled from the spec: `hashlib.md5(...).hexdigest()` is an external,
deterministic content digest of the encoded text; it is modelled by a
deterministic stand-in digest of the input string (every property stated
about the checksum below only uses that the digest is a function of its
input string). -/
def md5hex (s : String) : String :=
  toString (s.foldl (fun a c => a * 131 + c.toNat) 7)

/-- `self.checksum = hashlib.md5((str(attack_vectors) + str(summary)).encode()).hexdigest()`
(attack.py line 251). -/
def fingerprintChecksum (vs : List AttackVector) (summary : List (String × Int)) :
    String :=
  md5hex (pyStrVectorList vs ++ pyStrSummary summary)

/-- Python substring test `k in flags` on strings, via the character lists. -/
def charsInfixOf (pat : List Char) : List Char → Bool
  | [] => pat.isEmpty
  | c :: rest => pat.isPrefixOf (c :: rest) || charsInfixOf pat rest

/-- The space-separated flag names accumulated by the loop of attack.py
lines 284-287: for each `(k, v)` of `TCP_FLAG_NAMES` (a parameter, since
`util.py` is not among the sources), append `v + ' '` when the substring
`k` occurs in the dominant flag-combination string. -/
def tcpFlagNamesStr (flagNames : List (String × String)) (flags : String) : String :=
  flagNames.foldl
    (fun acc kv => if charsInfixOf kv.1.data flags.data then acc ++ kv.2 ++ " " else acc)
    ""

/-- attack.py line 288: `flag_names += 'no flag ' if flag_names == '' else 'flag '`. -/
def tcpFlagSuffix (flagNames : List (String × String)) (flags : String) : String :=
  let names := tcpFlagNamesStr flagNames flags
  names ++ (if names == "" then "no flag " else "flag ")

/-- First key of the `tcp_flags` dict: `list(vector.tcp_flags)[0]`. -/
def firstFlagKey (d : List (String × Nat)) : String :=
  match d with
  | (k, _) :: _ => k
  | [] => ""

/-- The three unconditional-per-vector appends at the top of the
`determine_tags` loop body (attack.py lines 276-280): the protocol name,
the flood tag when the service is unknown, and the service amplification
tag when several source IPs contributed and the service is known and not
the fragmentation category. -/
def baseVecTags (v : AttackVector) : List String :=
  [v.protocol] ++
  (if v.service = none then [v.protocol ++ " flood attack"] else []) ++
  (if 1 < v.source_ips_count ∧ v.service ≠ none ∧
      v.service ≠ some "Fragmented IP packets" then
    [pyStrService v.service ++ " amplification attack"]
  else [])

/-- The tags contributed by one vector in the loop body of
`Fingerprint.determine_tags` (attack.py lines 275-295), in append order.
A TCP vector whose `tcp_flags` is `None` makes the Python code call
`len(None)`, which raises `TypeError`; this is the `Except.error` case. -/
def vectorTags (amp : List (Nat × String)) (flagNames : List (String × String))
    (v : AttackVector) : Except String (List String) :=
  if v.protocol = "TCP" then
    match v.tcp_flags with
    | none => Except.error "TypeError"
    | some d =>
      if d.length = 1 then
        Except.ok (baseVecTags v ++
          ["TCP " ++ tcpFlagSuffix flagNames (firstFlagKey d) ++ "attack"])
      else
        Except.ok (baseVecTags v ++ ["TCP flag attack"])
  else if v.service = some "Fragmented IP packets" then
    Except.ok (baseVecTags v ++ ["Fragmentation attack"])
  else if (match v.service with
           | some s => amp.any fun kv => kv.2 == s
           | none => false) then
    Except.ok (baseVecTags v ++ ["Amplification attack"])
  else
    Except.ok (baseVecTags v)

/-- Sequential run of the `for vector in self.attack_vectors` loop: tags in
append order, stopping at the first raised exception. -/
def perVectorTags (amp : List (Nat × String)) (flagNames : List (String × String)) :
    List AttackVector → Except String (List String)
  | [] => Except.ok []
  | v :: rest =>
    match vectorTags amp flagNames v with
    | Except.error e => Except.error e
    | Except.ok ts =>
      match perVectorTags amp flagNames rest with
      | Except.error e => Except.error e
      | Except.ok rs => Except.ok (ts ++ rs)

/-- `Fingerprint.determine_tags` (attack.py lines 265-296).  The
`isinstance(self.target, IPNetwork)` test of line 273 is `False` for every
constructed `Fingerprint` (`self.target` is always a Python `list`), so the
`'Carpet bombing attack'` branch is unreachable and does not appear.  The
final `list(set(tags))` de-duplicates; only membership in the result is
meaningful (Python set order is unspecified), modelled by `List.dedup`. -/
def determineTags (amp : List (Nat × String)) (flagNames : List (String × String))
    (vs : List AttackVector) : Except String (List String) :=
  let multi :=
    if 1 < (vs.filter fun v => v.service != some "Fragmented IP packets").length then
      ["Multi-vector attack"]
    else []
  match perVectorTags amp flagNames vs with
  | Except.error e => Except.error e
  | Except.ok l => Except.ok ((multi ++ l).dedup)

/-- The `Fingerprint` attributes computed at construction
(attack.py lines 238-251) that the claims are about: the tag derivation
(which can raise) and the checksum.  The summary is the insertion-ordered
`dict[str, int]` passed to the constructor. -/
structure Fingerprint where
  summary : List (String × Int)
  attack_vectors : List AttackVector
  tags : Except String (List String)
  checksum : String
deriving Repr

/-- `Fingerprint.__init__` for the modelled attributes. -/
def mkFingerprint (amp : List (Nat × String)) (flagNames : List (String × String))
    (summary : List (String × Int)) (vs : List AttackVector) : Fingerprint :=
  { summary := summary
    attack_vectors := vs
    tags := determineTags amp flagNames vs
    checksum := fingerprintChecksum vs summary }

/-- The keys of the base `fields` dict literal of `AttackVector.as_dict`
(attack.py lines 196-217), in insertion order.  For a pcap capture the
file-type-labelled count key collides with `'nr_packets'`; a Python dict
keeps a single key (first position). -/
def avBaseKeys (v : AttackVector) : List String :=
  ["service", "protocol", "fraction_of_attack", "source_port",
   "destination_ports", "tcp_flags",
   (if v.filetype = FileType.flow then "nr_flows" else "nr_packets"),
   "nr_packets", "nr_megabytes", "avg_bps", "avg_pps", "avg_Bpp",
   "peak_bps", "peak_pps", "peak_Bpp", "time_start", "duration_seconds",
   "source_ips", "source_statistics"]

/-- The key set of the dict returned by `AttackVector.as_dict`
(attack.py lines 195-235), values elided: the claims about `as_dict`
concern which keys are present.  For a pcap vector the code evaluates
`self.eth_type.keys()` (line 221) without the `isinstance` guard used at
construction (line 156); when the ethernet-type summarization produced the
string `'random'`, that attribute access raises `AttributeError`
(`str` has no method `keys`), the `Except.error` case. -/
def asDictKeys (v : AttackVector) : Except String (List String) :=
  if v.filetype = FileType.pcap then
    match v.eth_type with
    | none => Except.error "AttributeError"
    | some d =>
      let ipKeys :=
        if (d.any fun kv => kv.1 == "IPv4") || (d.any fun kv => kv.1 == "IPv6") then
          ["fragmentation_offset", "ttl"]
        else []
      let enrich :=
        if v.service = some "DNS" then ["dns_query_name", "dns_query_type"]
        else if v.service = some "HTTP" ∨ v.service = some "HTTPS" then
          ["http_uri", "http_method", "http_user_agent"]
        else if v.service = some "NTP" then ["ntp_requestcode"]
        else if v.protocol = "ICMP" then ["icmp_type"]
        else []
      Except.ok ((avBaseKeys v ++ ["ethernet_type", "frame_len"] ++ ipKeys
        ++ enrich).dedup)
  else
    Except.ok ((avBaseKeys v).dedup)

/-! ### Helper lemmas -/

theorem natListMax_eq_zero {l : List Nat} (h : ∀ x ∈ l, x = 0) :
    natListMax l = 0 := by
  induction l with
  | nil => rfl
  | cons a t ih =>
    unfold natListMax at *
    rw [List.foldr_cons, h a (List.mem_cons_self a t),
      ih fun x hx => h x (List.mem_cons_of_mem a hx)]
    rfl

theorem pdSeriesMax_all_nan {l : List (Nat × Nat)} (h : ∀ g ∈ l, g = (0, 0)) :
    pdSeriesMax l = PdVal.nan := by
  unfold pdSeriesMax
  induction l with
  | nil => rfl
  | cons a t ih =>
    rw [List.map_cons, List.foldl_cons, h a (List.mem_cons_self a t)]
    exact ih fun g hg => h g (List.mem_cons_of_mem a hg)

theorem sum_components_zero {data : List Record} (f : Record → Nat)
    (h : ∀ r ∈ data, f r = 0) : (data.map f).sum = 0 :=
  List.sum_eq_zero fun x hx => by
    obtain ⟨r, hr, rfl⟩ := List.mem_map.mp hx
    exact h r hr

theorem groupSums_all_zero {data : List Record}
    (hb : ∀ r ∈ data, r.nr_bytes = 0) (hp : ∀ r ∈ data, r.nr_packets = 0) :
    ∀ g ∈ groupSums data, g = (0, 0) := by
  intro g hg
  obtain ⟨t, _, rfl⟩ := List.mem_map.mp hg
  refine Prod.ext ?_ ?_
  · exact sum_components_zero Record.nr_bytes
      fun r hr => hb r (List.mem_filter.mp hr).1
  · exact sum_components_zero Record.nr_packets
      fun r hr => hp r (List.mem_filter.mp hr).1

theorem strAppend_ne_of_data_not_suf {t M : String}
    (h : ¬ t.data <:+ M.data) (s : String) : s ++ t ≠ M := by
  intro he
  apply h
  have hd : s.data ++ t.data = M.data := by
    rw [← String.data_append, he]
  exact hd ▸ List.suffix_append s.data t.data

theorem strAppend2_ne_of_data_not_pre {a M : String}
    (h : ¬ a.data <+: M.data) (x y : String) : (a ++ x) ++ y ≠ M := by
  intro he
  apply h
  have hd : a.data ++ (x.data ++ y.data) = M.data := by
    rw [← List.append_assoc, ← String.data_append, ← String.data_append, he]
  exact hd ▸ List.prefix_append a.data (x.data ++ y.data)

theorem mem_ite_singleton {α : Type} {c : Prop} [Decidable c] {a x : α}
    (h : x ∈ (if c then [a] else [])) : x = a := by
  split at h
  · exact List.mem_singleton.mp h
  · cases h

/-! ### Concrete fixtures used by witnesses and counterexamples -/

/-- A record with all fields zero (one packet-less, byte-less row). -/
def zeroRecord : Record :=
  { source_address := 0, source_port := 0, destination_port := 0,
    nr_packets := 0, nr_bytes := 0, time_start := 0, time_end := 0,
    unix_timestamp := 0 }

/-- A small ordinary record. -/
def oneRecord : Record :=
  { source_address := 1, source_port := 53, destination_port := 4000,
    nr_packets := 2, nr_bytes := 120, time_start := 0,
    time_end := 2000000000, unix_timestamp := 0 }

/-- A record whose time span is exactly one day. -/
def daySpanRecord : Record :=
  { source_address := 1, source_port := 0, destination_port := 0,
    nr_packets := 1, nr_bytes := 40, time_start := 0,
    time_end := 86400 * 1000000000, unix_timestamp := 0 }

/-- An example amplification-service table. -/
def ampEx : List (Nat × String) := [(53, "DNS")]

/-- A plain UDP/DNS vector. -/
def baseVector : AttackVector :=
  mkAttackVector [oneRecord] 53 "udp" FileType.flow
    [(PKey.num 4000, 2)] [] [] ampEx (fun _ _ => none)

/-- A constructed TCP vector whose `tcp_flags` summarization produced no
dominant value (`tcp_out = []`), so `self.tcp_flags` is `None`. -/
def tcpNoneVector : AttackVector :=
  mkAttackVector [oneRecord] 5 "tcp" FileType.flow [] [] [] [] (fun _ _ => none)

/-- A constructed TCP vector classified as `'Fragmented IP packets'`
(source port 0, single summarized destination port 0) with a dominant
flag combination. -/
def tcpFragVector : AttackVector :=
  mkAttackVector [oneRecord] 0 "tcp" FileType.flow
    [(PKey.num 0, 5)] [("S", 5)] [] [] (fun _ _ => none)

/-- A constructed UDP vector classified as `'Fragmented IP packets'`. -/
def udpFragVector : AttackVector :=
  mkAttackVector [oneRecord] 0 "udp" FileType.flow
    [(PKey.num 0, 5)] [] [] [] (fun _ _ => none)

/-- A constructed pcap vector whose ethernet-type summarization produced the
`'random'` marker (`eth_out = []`). -/
def randomEthVector : AttackVector :=
  mkAttackVector [oneRecord] 53 "udp" FileType.pcap [] [] [] ampEx
    (fun _ _ => none)

/-- A UDP vector with service `DNS` (via the amplification table). -/
def vDNS : AttackVector :=
  mkAttackVector [oneRecord] 53 "udp" FileType.flow [] [] []
    [(53, "DNS")] (fun _ _ => none)

/-- A UDP vector with service `NTP` (via the amplification table). -/
def vNTP : AttackVector :=
  mkAttackVector [oneRecord] 123 "udp" FileType.flow [] [] []
    [(123, "NTP")] (fun _ _ => none)

/-! ### C9 — ordering of attack vectors -/

/-- C9: the comparison `AttackVector.__lt__` holds exactly when the left
vector has strictly fewer bytes and its service is not
`'Fragmented IP packets'` (attack.py lines 190-193). -/
theorem avLt_iff (a b : AttackVector) :
    avLt a b = true ↔
      a.bytes < b.bytes ∧ a.service ≠ some "Fragmented IP packets" := by
  simp [avLt, bne_iff_ne]

/-- Witness for `avLt_iff` at concrete vectors: a 120-byte non-fragmentation
vector is less-than a 240-byte one. -/
theorem avLt_iff_witness :
    avLt baseVector { baseVector with bytes := 240 } = true :=
  (avLt_iff baseVector { baseVector with bytes := 240 }).mpr
    (by refine ⟨by decide, by decide⟩)

/-! ### C3 / C4 — fingerprint checksum -/

/-- C3: the checksum computed at `Fingerprint` construction is a function of
the ordered attack-vector list and the (insertion-ordered) summary
mapping: two fingerprints built from equal vector lists and equal
summaries have equal checksums (attack.py line 251). -/
theorem fingerprint_checksum_eq_of_eq
    (amp : List (Nat × String)) (fn : List (String × String))
    (s1 s2 : List (String × Int)) (vs1 vs2 : List AttackVector)
    (hv : vs1 = vs2) (hs : s1 = s2) :
    (mkFingerprint amp fn s1 vs1).checksum = (mkFingerprint amp fn s2 vs2).checksum := by
  subst hv
  subst hs
  rfl

/-- Witness for `fingerprint_checksum_eq_of_eq` at a concrete vector list and
summary. -/
theorem fingerprint_checksum_eq_of_eq_witness :
    (mkFingerprint ampEx [] [("total_packets", 2)] [baseVector]).checksum =
      (mkFingerprint ampEx [] [("total_packets", 2)] [baseVector]).checksum :=
  fingerprint_checksum_eq_of_eq ampEx [] _ _ _ _ rfl rfl

/-- C4: the checksum depends only on each vector's `fraction_of_attack`,
`protocol` and `service` (the fields rendered by `AttackVector.__str__`,
attack.py lines 181-185) together with the summary: vector lists that
agree on those three fields per position give equal checksums, whatever
the other fields hold. -/
theorem fingerprint_checksum_depends_only_on_repr_fields
    (s1 s2 : List (String × Int)) (vs1 vs2 : List AttackVector)
    (hv : List.Forall₂
      (fun a b => a.fraction_of_attack = b.fraction_of_attack ∧
        a.protocol = b.protocol ∧ a.service = b.service) vs1 vs2)
    (hs : s1 = s2) :
    fingerprintChecksum vs1 s1 = fingerprintChecksum vs2 s2 := by
  subst hs
  have hmap : vs1.map pyStrAttackVector = vs2.map pyStrAttackVector := by
    induction hv with
    | nil => rfl
    | cons h _ ih =>
      rw [List.map_cons, List.map_cons, ih]
      unfold pyStrAttackVector
      rw [h.1, h.2.1, h.2.2]
  unfold fingerprintChecksum pyStrVectorList
  rw [hmap]

/-- Witness for `fingerprint_checksum_depends_only_on_repr_fields`: two
vectors sharing fraction/protocol/service but differing in bytes, packets,
ports, source-IP count, duration and file type hash identically. -/
theorem fingerprint_checksum_depends_only_on_repr_fields_witness :
    fingerprintChecksum [baseVector] [("total_packets", 2)] =
      fingerprintChecksum
        [{ baseVector with
            bytes := 987654, packets := 4321, source_port := 9,
            destination_ports := some [(PKey.other, 1)],
            source_ips_count := 50, duration := 3600,
            filetype := FileType.pcap, eth_type := some [("IPv4", 2)] }]
        [("total_packets", 2)] :=
  fingerprint_checksum_depends_only_on_repr_fields _ _ _ _
    (List.Forall₂.cons ⟨rfl, rfl, rfl⟩ List.Forall₂.nil) rfl

/-! ### C2 — tag derivation raises on a TCP vector with no dominant flags -/

/-- C2 (code bug): constructing a `Fingerprint` over a TCP vector whose
`tcp_flags` summarization produced no dominant value (`self.tcp_flags =
None`, attack.py line 147) raises `TypeError` inside `determine_tags`
(`len(vector.tcp_flags)` on `None`, attack.py line 282) instead of falling
back to a neutral value: the tag derivation run at construction is the
error case. -/
theorem fingerprint_tcp_none_tags_raise :
    (mkFingerprint [] [] [] [tcpNoneVector]).tags = Except.error "TypeError" := rfl

/-! ### C10 — as_dict on a pcap vector with the random ethernet marker -/

/-- C10 (code bug): `AttackVector.as_dict` on a pcap vector whose
ethernet-type summarization produced the `'random'` marker evaluates
`self.eth_type.keys()` (attack.py line 221) without the `isinstance`
guard used at construction (line 156) and raises `AttributeError`
instead of returning the mapping without the `fragmentation_offset` /
`ttl` keys. -/
theorem asDict_random_eth_raises :
    asDictKeys randomEthVector = Except.error "AttributeError" := rfl

/-! ### C1 — metrics on a record set with zero total packets -/

/-- C1 counterexample: for the one-record set whose single record has zero
packets and zero bytes (total packet count 0), `AttackVector.peak_Bpp` is
the pandas `NaN` (the all-`NaN` maximum of `0 // 0`), not `0`, so the six
metrics are not all `0` as claimed. -/
theorem attack_peakBpp_nan_counterexample :
    sumPackets [zeroRecord] = 0 ∧ avPeakBpp [zeroRecord] = PdVal.nan ∧
      PdVal.nan ≠ PdVal.fin 0 := by
  exact ⟨rfl, rfl, by decide⟩

/-- C1 amended: on a nonempty record set with zero total packets and zero
total bytes, the `AttackVector` averages and `peak_bps`/`peak_pps` are `0`
and `peak_Bpp` is the pandas `NaN` marker (not `0`), while all six
`NormalTraffic.as_dict` metrics are `0`; no arithmetic fault is raised
(pandas turns the zero divisions into `NaN`). -/
theorem zero_packet_byte_metrics (data : List Record) (dur : Int)
    (_hne : data ≠ []) (hp : sumPackets data = 0) (hb : sumBytes data = 0) :
    avAvgBps data = 0 ∧ avAvgPps data = 0 ∧ avAvgBpp data = 0 ∧
    avPeakBps data = 0 ∧ avPeakPps data = 0 ∧ avPeakBpp data = PdVal.nan ∧
    ntAvgBps data dur = 0 ∧ ntAvgPps data dur = 0 ∧ ntAvgBpp data = 0 ∧
    ntPeakBps data = 0 ∧ ntPeakPps data = 0 ∧ ntPeakBpp data = PdVal.fin 0 := by
  have hallp : ∀ r ∈ data, r.nr_packets = 0 := fun r hr =>
    List.sum_eq_zero_iff.mp hp _ (List.mem_map_of_mem Record.nr_packets hr)
  have hallb : ∀ r ∈ data, r.nr_bytes = 0 := fun r hr =>
    List.sum_eq_zero_iff.mp hb _ (List.mem_map_of_mem Record.nr_bytes hr)
  have hg : ∀ g ∈ groupSums data, g = (0, 0) := groupSums_all_zero hallb hallp
  have hgfst : natListMax ((groupSums data).map Prod.fst) = 0 := by
    refine natListMax_eq_zero fun x hx => ?_
    obtain ⟨g, hgm, rfl⟩ := List.mem_map.mp hx
    rw [hg g hgm]
  have hgsnd : natListMax ((groupSums data).map Prod.snd) = 0 := by
    refine natListMax_eq_zero fun x hx => ?_
    obtain ⟨g, hgm, rfl⟩ := List.mem_map.mp hx
    rw [hg g hgm]
  refine ⟨?_, ?_, ?_, ?_, ?_, ?_, ?_, ?_, ?_, ?_, ?_, ?_⟩
  · simp [avAvgBps, hb]
  · simp [avAvgPps, hp]
  · simp [avAvgBpp, hp]
  · simp [avPeakBps, hgfst]
  · simp [avPeakPps, hgsnd]
  · exact pdSeriesMax_all_nan hg
  · simp [ntAvgBps, hb]
  · simp [ntAvgPps, hp]
  · simp [ntAvgBpp, hp]
  · simp [ntPeakBps, hb]
  · simp [ntPeakPps, hp]
  · simp [ntPeakBpp, hp]

/-- Witness for `zero_packet_byte_metrics` at the concrete one-record set. -/
theorem zero_packet_byte_metrics_witness :
    avAvgBps [zeroRecord] = 0 ∧ avAvgPps [zeroRecord] = 0 ∧
    avAvgBpp [zeroRecord] = 0 ∧ avPeakBps [zeroRecord] = 0 ∧
    avPeakPps [zeroRecord] = 0 ∧ avPeakBpp [zeroRecord] = PdVal.nan ∧
    ntAvgBps [zeroRecord] 0 = 0 ∧ ntAvgPps [zeroRecord] 0 = 0 ∧
    ntAvgBpp [zeroRecord] = 0 ∧ ntPeakBps [zeroRecord] = 0 ∧
    ntPeakPps [zeroRecord] = 0 ∧ ntPeakBpp [zeroRecord] = PdVal.fin 0 :=
  zero_packet_byte_metrics [zeroRecord] 0 (by decide) rfl rfl

/-! ### C8 — duration -/

/-- C8 counterexample: for a single record spanning exactly one day, the
rounded difference between maximum end time and minimum start time is
86400 seconds, but `duration` — the `.seconds` component of the pandas
`Timedelta`, which drops whole days (attack.py line 109) — is `0`. -/
theorem duration_day_span_counterexample :
    avDuration [daySpanRecord] = 0 ∧
    roundHalfEvenSec (maxEnd [daySpanRecord] - minStart [daySpanRecord]) = 86400 ∧
    (0 : Int) ≠ 86400 := by
  refine ⟨by decide, by decide, by decide⟩

/-- C8 amended: for every nonempty record set, `duration` is nonnegative
(indeed in `[0, 86400)`) and equals the rounded difference between the
maximum end time and the minimum start time taken modulo 86400 (the
`Timedelta.seconds` component); it equals the rounded difference itself
exactly when that difference lies in `[0, 86400)`. -/
theorem duration_nonneg_seconds_component (data : List Record)
    (_hne : data ≠ []) :
    0 ≤ avDuration data ∧ avDuration data < 86400 ∧
    avDuration data =
      (roundHalfEvenSec (maxEnd data - minStart data)).emod 86400 ∧
    (avDuration data = roundHalfEvenSec (maxEnd data - minStart data) ↔
      0 ≤ roundHalfEvenSec (maxEnd data - minStart data) ∧
        roundHalfEvenSec (maxEnd data - minStart data) < 86400) := by
  unfold avDuration tdSecondsComponent
  refine ⟨Int.emod_nonneg _ (by norm_num), Int.emod_lt_of_pos _ (by norm_num),
    rfl, ?_⟩
  constructor
  · intro h
    exact ⟨h ▸ Int.emod_nonneg _ (by norm_num),
      h ▸ Int.emod_lt_of_pos _ (by norm_num)⟩
  · rintro ⟨h1, h2⟩
    exact Int.emod_eq_of_lt h1 h2

/-- Witness for `duration_nonneg_seconds_component` at a concrete two-second
record set. -/
theorem duration_nonneg_seconds_component_witness :
    0 ≤ avDuration [oneRecord] ∧ avDuration [oneRecord] < 86400 ∧
    avDuration [oneRecord] =
      (roundHalfEvenSec (maxEnd [oneRecord] - minStart [oneRecord])).emod 86400 ∧
    (avDuration [oneRecord] =
        roundHalfEvenSec (maxEnd [oneRecord] - minStart [oneRecord]) ↔
      0 ≤ roundHalfEvenSec (maxEnd [oneRecord] - minStart [oneRecord]) ∧
        roundHalfEvenSec (maxEnd [oneRecord] - minStart [oneRecord]) < 86400) :=
  duration_nonneg_seconds_component [oneRecord] (by decide)

/-! ### C5 — service identification -/

/-- C5: the service computation of attack.py lines 131-145 refines the
spec description: UDP with a fixed source port prefers the
amplification-table name and falls back to the standard lookup; TCP with
a fixed source port uses the standard lookup only; a non-fixed port gives
`None`; a failed lookup gives `'Fragmented IP packets'` exactly when the
source port is 0 and the single summarized destination port is 0, else
`None`.  The hypothesis states that amplification-service names are
nonempty strings (a nonempty name is what the table stores; the Python
`or` would drop an empty one). -/
theorem getService_refines_spec (amp : List (Nat × String))
    (lookup : Nat → String → Option String) (protocol : String)
    (source_port : Int) (dports : Option (List (PKey × Nat)))
    (hamp : ∀ kv ∈ amp, kv.2 ≠ "") :
    getService amp lookup protocol source_port dports =
      serviceSpec amp lookup protocol source_port dports := by
  by_cases hsp : source_port = -1
  · simp [getService, serviceSpec, hsp]
  · have h1 : (source_port != -1) = true := bne_iff_ne.mpr hsp
    have h2 : (source_port == -1) = false := beq_eq_false_iff_ne.mpr hsp
    by_cases hU : strUpper protocol = "UDP"
    · cases ha : ampGet amp source_port with
      | none => simp [getService, serviceSpec, h1, h2, hU, ha]
      | some s =>
        have hs : s ≠ "" := by
          obtain ⟨kv, hfind, rfl⟩ := Option.map_eq_some'.mp ha
          exact hamp kv (List.mem_of_find?_eq_some hfind)
        simp [getService, serviceSpec, h1, h2, hU, ha, bne_iff_ne.mpr hs]
    · by_cases hT : strUpper protocol = "TCP"
      · simp [getService, serviceSpec, h1, h2, hU, hT]
      · simp [getService, serviceSpec, h1, h2, hU, hT]

/-- Witness for `getService_refines_spec` at a concrete table and lookup:
UDP source port 53 resolves to the amplification name `DNS` on both
sides. -/
theorem getService_refines_spec_witness :
    getService ampEx (fun _ _ => none) "udp" 53 none =
      serviceSpec ampEx (fun _ _ => none) "udp" 53 none :=
  getService_refines_spec ampEx (fun _ _ => none) "udp" 53 none (by decide)

/-! ### C6 / C7 — tag membership -/

theorem perVectorTags_mem {amp : List (Nat × String)}
    {fn : List (String × String)} {vs : List AttackVector}
    {l : List String} (hok : perVectorTags amp fn vs = Except.ok l)
    {v : AttackVector} (hv : v ∈ vs) :
    ∃ ts, vectorTags amp fn v = Except.ok ts ∧ ∀ x ∈ ts, x ∈ l := by
  induction vs generalizing l with
  | nil => cases hv
  | cons a rest ih =>
    unfold perVectorTags at hok
    cases hva : vectorTags amp fn a with
    | error e => rw [hva] at hok; cases hok
    | ok ts =>
      rw [hva] at hok
      cases hrest : perVectorTags amp fn rest with
      | error e => rw [hrest] at hok; cases hok
      | ok rs =>
        rw [hrest] at hok
        injection hok with hl
        rcases List.mem_cons.mp hv with rfl | hv2
        · exact ⟨ts, hva, fun x hx => hl ▸ List.mem_append_left rs hx⟩
        · obtain ⟨ts2, h1, h2⟩ := ih hrest hv2
          exact ⟨ts2, h1, fun x hx => hl ▸ List.mem_append_right ts (h2 x hx)⟩

theorem determineTags_mem {amp : List (Nat × String)}
    {fn : List (String × String)} {vs : List AttackVector}
    {tags : List String} (hok : determineTags amp fn vs = Except.ok tags)
    {v : AttackVector} (hv : v ∈ vs) :
    ∃ ts, vectorTags amp fn v = Except.ok ts ∧ ∀ x ∈ ts, x ∈ tags := by
  unfold determineTags at hok
  cases hper : perVectorTags amp fn vs with
  | error e => rw [hper] at hok; cases hok
  | ok l =>
    rw [hper] at hok
    injection hok with htags
    obtain ⟨ts, h1, h2⟩ := perVectorTags_mem hper hv
    refine ⟨ts, h1, fun x hx => ?_⟩
    rw [← htags, List.mem_dedup]
    exact List.mem_append_right _ (h2 x hx)

/-- C6 counterexample: a constructed TCP vector classified as
`'Fragmented IP packets'` (source port 0, single destination port 0).
Because the fragmentation branch of `determine_tags` is an `elif` behind
the `protocol == 'TCP'` branch (attack.py lines 281-293), the tag set does
not contain `'Fragmentation attack'`. -/
theorem fragmentation_tag_tcp_counterexample :
    tcpFragVector.service = some "Fragmented IP packets" ∧
    determineTags [] [] [tcpFragVector] =
      Except.ok ["TCP", "TCP no flag attack"] ∧
    "Fragmentation attack" ∉ ["TCP", "TCP no flag attack"] :=
  ⟨rfl, rfl, by decide⟩

/-- C6 amended: in every successfully derived tag set, every
vector whose protocol is not TCP and whose service is
`'Fragmented IP packets'` contributes `'Fragmentation attack'`, and every
vector whose protocol is not TCP and whose service is known, different
from the fragmentation category and equal to a known
amplification-service name contributes `'Amplification attack'` (for TCP
vectors the flag branch preempts both, attack.py lines 281-295). -/
theorem frag_amp_tags_amended (amp : List (Nat × String))
    (fn : List (String × String)) (vs : List AttackVector)
    (tags : List String) (hok : determineTags amp fn vs = Except.ok tags)
    (v : AttackVector) (hv : v ∈ vs) (htcp : v.protocol ≠ "TCP") :
    (v.service = some "Fragmented IP packets" →
      "Fragmentation attack" ∈ tags) ∧
    (∀ s, v.service = some s → s ≠ "Fragmented IP packets" →
      (∃ kv ∈ amp, kv.2 = s) → "Amplification attack" ∈ tags) := by
  obtain ⟨ts, hts, hsub⟩ := determineTags_mem hok hv
  constructor
  · intro hserv
    apply hsub
    unfold vectorTags at hts
    rw [if_neg htcp, if_pos hserv] at hts
    injection hts with h
    rw [← h]
    exact List.mem_append_right _ (List.mem_singleton.mpr rfl)
  · intro s hs hsfrag hkv
    apply hsub
    unfold vectorTags at hts
    have hnfrag : v.service ≠ some "Fragmented IP packets" := by
      rw [hs]
      intro hcon
      exact hsfrag (Option.some_injective String hcon)
    have hany : (match v.service with
        | some s => amp.any fun kv => kv.2 == s
        | none => false) = true := by
      rw [hs]
      obtain ⟨kv, hkvmem, rfl⟩ := hkv
      exact List.any_eq_true.mpr ⟨kv, hkvmem, beq_self_eq_true kv.2⟩
    rw [if_neg htcp, if_neg hnfrag, if_pos (by rw [hany])] at hts
    injection hts with h
    rw [← h]
    exact List.mem_append_right _ (List.mem_singleton.mpr rfl)

/-- Witness for `frag_amp_tags_amended`: a constructed UDP fragmentation
vector contributes the `'Fragmentation attack'` tag. -/
theorem frag_amp_tags_amended_witness :
    "Fragmentation attack" ∈ ["UDP", "Fragmentation attack"] :=
  (frag_amp_tags_amended [] [] [udpFragVector] ["UDP", "Fragmentation attack"]
    rfl udpFragVector (List.mem_singleton.mpr rfl) (by decide)).1 rfl

theorem multi_not_in_baseVecTags {v : AttackVector}
    (hup : v.protocol = strUpper v.protocol) :
    "Multi-vector attack" ∉ baseVecTags v := by
  intro hmem
  unfold baseVecTags at hmem
  rcases List.mem_append.mp hmem with h12 | h3
  · rcases List.mem_append.mp h12 with h1 | h2
    · have h := List.mem_singleton.mp h1
      rw [← h] at hup
      exact absurd hup (by decide)
    · have h := mem_ite_singleton h2
      exact strAppend_ne_of_data_not_suf (by decide) v.protocol h.symm
  · have h := mem_ite_singleton h3
    exact strAppend_ne_of_data_not_suf (by decide) _ h.symm

theorem multi_not_in_vectorTags {amp : List (Nat × String)}
    {fn : List (String × String)} {v : AttackVector} {ts : List String}
    (hup : v.protocol = strUpper v.protocol)
    (hok : vectorTags amp fn v = Except.ok ts) :
    "Multi-vector attack" ∉ ts := by
  intro hmem
  unfold vectorTags at hok
  by_cases h1 : v.protocol = "TCP"
  · rw [if_pos h1] at hok
    cases hd : v.tcp_flags with
    | none => rw [hd] at hok; exact Except.noConfusion hok
    | some d =>
      rw [hd] at hok
      simp only [] at hok
      by_cases h2 : d.length = 1
      · rw [if_pos h2] at hok
        injection hok with h
        rw [← h] at hmem
        rcases List.mem_append.mp hmem with hb | hx
        · exact multi_not_in_baseVecTags hup hb
        · exact strAppend2_ne_of_data_not_pre (by decide) _ _
            (List.mem_singleton.mp hx).symm
      · rw [if_neg h2] at hok
        injection hok with h
        rw [← h] at hmem
        rcases List.mem_append.mp hmem with hb | hx
        · exact multi_not_in_baseVecTags hup hb
        · exact absurd (List.mem_singleton.mp hx) (by decide)
  · rw [if_neg h1] at hok
    by_cases h2 : v.service = some "Fragmented IP packets"
    · rw [if_pos h2] at hok
      injection hok with h
      rw [← h] at hmem
      rcases List.mem_append.mp hmem with hb | hx
      · exact multi_not_in_baseVecTags hup hb
      · exact absurd (List.mem_singleton.mp hx) (by decide)
    · rw [if_neg h2] at hok
      by_cases h3 : (match v.service with
          | some s => amp.any fun kv => kv.2 == s
          | none => false) = true
      · rw [if_pos h3] at hok
        injection hok with h
        rw [← h] at hmem
        rcases List.mem_append.mp hmem with hb | hx
        · exact multi_not_in_baseVecTags hup hb
        · exact absurd (List.mem_singleton.mp hx) (by decide)
      · rw [if_neg h3] at hok
        injection hok with h
        rw [← h] at hmem
        exact multi_not_in_baseVecTags hup hmem

theorem multi_not_in_perVectorTags {amp : List (Nat × String)}
    {fn : List (String × String)} {vs : List AttackVector} {l : List String}
    (hup : ∀ v ∈ vs, v.protocol = strUpper v.protocol)
    (hok : perVectorTags amp fn vs = Except.ok l) :
    "Multi-vector attack" ∉ l := by
  induction vs generalizing l with
  | nil =>
    unfold perVectorTags at hok
    injection hok with h
    rw [← h]
    exact List.not_mem_nil _
  | cons a rest ih =>
    unfold perVectorTags at hok
    cases hva : vectorTags amp fn a with
    | error e => rw [hva] at hok; cases hok
    | ok ts =>
      rw [hva] at hok
      cases hrest : perVectorTags amp fn rest with
      | error e => rw [hrest] at hok; cases hok
      | ok rs =>
        rw [hrest] at hok
        injection hok with hl
        intro hmem
        rw [← hl] at hmem
        rcases List.mem_append.mp hmem with hx | hx
        · exact multi_not_in_vectorTags
            (hup a (List.mem_cons_self a rest)) hva hx
        · exact ih (fun v hv => hup v (List.mem_cons_of_mem a hv)) hrest hx

/-- C7: `'Multi-vector attack'` is in a successfully derived tag set exactly
when strictly more than one attack vector has a service different from
`'Fragmented IP packets'` (attack.py lines 270-272).  The protocol
hypothesis records the construction invariant `self.protocol =
protocol.upper()`, which rules out a protocol string colliding with the
tag text. -/
theorem multi_vector_tag_iff (amp : List (Nat × String))
    (fn : List (String × String)) (vs : List AttackVector)
    (tags : List String) (hok : determineTags amp fn vs = Except.ok tags)
    (hup : ∀ v ∈ vs, v.protocol = strUpper v.protocol) :
    ("Multi-vector attack" ∈ tags ↔
      1 < (vs.filter fun v =>
        v.service != some "Fragmented IP packets").length) := by
  unfold determineTags at hok
  cases hper : perVectorTags amp fn vs with
  | error e => rw [hper] at hok; cases hok
  | ok l =>
    rw [hper] at hok
    injection hok with htags
    have hnot := multi_not_in_perVectorTags hup hper
    rw [← htags, List.mem_dedup, List.mem_append]
    by_cases hc : 1 < (vs.filter fun v =>
        v.service != some "Fragmented IP packets").length
    · simp [hc]
    · simp [hc, hnot]

/-- Witness for `multi_vector_tag_iff`: two constructed UDP vectors with
distinct amplification services yield the tag. -/
theorem multi_vector_tag_iff_witness :
    "Multi-vector attack" ∈ ["Multi-vector attack", "UDP"] :=
  (multi_vector_tag_iff [] [] [vDNS, vNTP] ["Multi-vector attack", "UDP"]
    rfl (by decide)).mpr (by decide)
